import Mathlib

/-!
Shallow embedding of the MCP protocol dispatch core of the
zetachain_mcp_server repository (core/base.py, server.py, core/transport.py).

JSON values are modelled by `JValue`; Python dicts produced by `json.loads`
are modelled as insertion-ordered association lists with unique keys
(`JValue.obj`).  Python numbers are modelled as integers (no claim depends
on floats).  Exceptions are modelled by `Except String`, the `String` being
`str(e)` of the Python exception.  Tool handler bodies delegate to the
domain managers, which are external collaborators outside the dispatch
core; a handler is therefore an arbitrary function from the raw arguments
value to `Except String JValue` (raising on a keyword-argument mismatch is
one possible behaviour of such a function).
-/

/-- JSON values as produced by `json.loads` / consumed by `json.dumps`. -/
inductive JValue where
  | null : JValue
  | bool : Bool → JValue
  | num : Int → JValue
  | str : String → JValue
  | arr : List JValue → JValue
  | obj : List (String × JValue) → JValue
deriving Inhabited

/-- Lookup of a key in a dict's items (keys are unique by construction). -/
def jLookup (key : String) : List (String × JValue) → Option JValue
  | [] => none
  | (k, v) :: rest => if k == key then some v else jLookup key rest

/-- Whether a dict has a given key. -/
def hasKeyB (key : String) : List (String × JValue) → Bool
  | [] => false
  | (k, _) :: rest => k == key || hasKeyB key rest

/-- Python type name of the value, as it appears in AttributeError texts. -/
def pyTypeName : JValue → String
  | .null => "NoneType"
  | .bool _ => "bool"
  | .num _ => "int"
  | .str _ => "str"
  | .arr _ => "list"
  | .obj _ => "dict"

/-- Message of the AttributeError raised by `v.get(...)` on a non-dict `v`. -/
def noAttrGet (v : JValue) : String :=
  "'" ++ pyTypeName v ++ "' object has no attribute 'get'"

mutual

/-- Python `repr` of a parsed-JSON value (string escaping elided: no claim
exercises quotes inside interpolated values). -/
def pyRepr : JValue → String
  | .null => "None"
  | .bool true => "True"
  | .bool false => "False"
  | .num n => toString n
  | .str s => "'" ++ s ++ "'"
  | .arr [] => "[]"
  | .arr (x :: xs) => "[" ++ pyReprArr x xs ++ "]"
  | .obj [] => "\x7b\x7d"
  | .obj ((k, v) :: kvs) => "\x7b" ++ pyReprObj k v kvs ++ "\x7d"
termination_by v => sizeOf v
decreasing_by all_goals (simp_wf; omega)

/-- Comma-joined reprs of the elements of a list (first element split off). -/
def pyReprArr (x : JValue) : List JValue → String
  | [] => pyRepr x
  | y :: ys => pyRepr x ++ ", " ++ pyReprArr y ys
termination_by ys => sizeOf x + sizeOf ys + 1
decreasing_by all_goals (simp_wf; omega)

/-- Comma-joined reprs of the items of a dict (first item split off). -/
def pyReprObj (k : String) (v : JValue) : List (String × JValue) → String
  | [] => "'" ++ k ++ "': " ++ pyRepr v
  | (k2, v2) :: ys => "'" ++ k ++ "': " ++ pyRepr v ++ ", " ++ pyReprObj k2 v2 ys
termination_by ys => sizeOf v + sizeOf ys + 1
decreasing_by all_goals (simp_wf; omega)

end

/-- Python `str` of a parsed-JSON value, as interpolated by f-strings:
identical to `repr` except on strings, which interpolate verbatim
(the `None` case is spelled out so that it computes by reduction). -/
def pyStr : JValue → String
  | .null => "None"
  | .str s => s
  | v => pyRepr v

/-- JSON string escaping used by `json.dumps` (common escapes). -/
def escChar (c : Char) : String :=
  if c = '"' then "\\\"" else if c = '\\' then "\\\\"
  else if c = '\n' then "\\n" else if c = '\t' then "\\t"
  else if c = '\r' then "\\r" else String.singleton c

/-- Escape every character of a string for JSON output. -/
def escapeStr (s : String) : String :=
  String.join (s.toList.map escChar)

/-- A run of `n` spaces. -/
def spaces (n : Nat) : String :=
  String.mk (List.replicate n ' ')

mutual

/-- The serialization `json.dumps(v, indent=2)` at current indent `ind`. -/
def dumpsVal (ind : Nat) : JValue → String
  | .null => "null"
  | .bool true => "true"
  | .bool false => "false"
  | .num n => toString n
  | .str s => "\"" ++ escapeStr s ++ "\""
  | .arr [] => "[]"
  | .arr (x :: xs) => "[\n" ++ dumpsArrItems (ind + 2) x xs ++ "\n" ++ spaces ind ++ "]"
  | .obj [] => "\x7b\x7d"
  | .obj ((k, v) :: kvs) =>
      "\x7b\n" ++ dumpsObjItems (ind + 2) k v kvs ++ "\n" ++ spaces ind ++ "\x7d"
termination_by v => sizeOf v
decreasing_by all_goals (simp_wf; omega)

/-- Indented, comma-and-newline separated serializations of list elements. -/
def dumpsArrItems (ind : Nat) (x : JValue) : List JValue → String
  | [] => spaces ind ++ dumpsVal ind x
  | y :: ys => spaces ind ++ dumpsVal ind x ++ ",\n" ++ dumpsArrItems ind y ys
termination_by ys => sizeOf x + sizeOf ys + 1
decreasing_by all_goals (simp_wf; omega)

/-- Indented, comma-and-newline separated serializations of dict items. -/
def dumpsObjItems (ind : Nat) (k : String) (v : JValue) : List (String × JValue) → String
  | [] => spaces ind ++ "\"" ++ escapeStr k ++ "\": " ++ dumpsVal ind v
  | (k2, v2) :: ys =>
      spaces ind ++ "\"" ++ escapeStr k ++ "\": " ++ dumpsVal ind v ++ ",\n"
        ++ dumpsObjItems ind k2 v2 ys
termination_by ys => sizeOf v + sizeOf ys + 1
decreasing_by all_goals (simp_wf; omega)

end

/-- The subclass-provided parts of `MCPServer` (base.py is an ABC):
the descriptor list that `_load_tools` assigns to `self.tools`, and the
`getattr(self, "tool_" + n, None)` lookup of the bound handler methods. -/
structure MCPServerImpl where
  loadedTools : List JValue
  getHandler : String → Option (JValue → Except String JValue)

/-- The mutable server state: `self.tools`, `self._initialized`, plus an
invocation counter for `_load_tools` (instrumentation for idempotence). -/
structure ServerState where
  tools : List JValue
  inited : Bool
  loadCount : Nat

/-- State set up by `MCPServer.__init__`: empty tools, not initialized. -/
def initState : ServerState := ⟨[], false, 0⟩

/-- The fixed capability payload returned by `MCPServer.initialize`. -/
def capabilityPayload : JValue :=
  .obj [("protocolVersion", .str "2024-11-05"),
        ("capabilities", .obj
          [("tools", .obj [("listChanged", .bool true)]),
           ("resources", .obj [("subscribe", .bool true), ("listChanged", .bool true)]),
           ("prompts", .obj [("listChanged", .bool true)]),
           ("logging", .obj []),
           ("experimental", .obj [])]),
        ("serverInfo", .obj
          [("name", .str "zetachain-mcp-server"),
           ("version", .str "1.0.0")])]

/-- `MCPServer.initialize`: on first call runs `_load_tools` (which assigns
`self.tools`) and sets the flag; always returns the capability payload. -/
def initServer (impl : MCPServerImpl) (st : ServerState) : JValue × ServerState :=
  if st.inited then (capabilityPayload, st)
  else (capabilityPayload, ⟨impl.loadedTools, true, st.loadCount + 1⟩)

/-- How `params.get("name")` interpolates into `f"tool_{name}"` and the
ValueError text: absent or null becomes Python `None`, printing `"None"`. -/
def toolNameStr (name : Option JValue) : String :=
  pyStr (name.getD .null)

/-- `MCPServer.call_tool`: resolve `getattr(self, f"tool_{name}", None)`;
if absent raise ValueError (outside the try block, so it propagates);
otherwise await the handler inside try/except, wrapping the outcome as the
`\x7bsuccess, result|error\x7d` envelope. -/
def call_tool (impl : MCPServerImpl) (name : Option JValue) (args : JValue) :
    Except String JValue :=
  match impl.getHandler (toolNameStr name) with
  | none => .error ("Tool '" ++ toolNameStr name ++ "' not found")
  | some h =>
    match h args with
    | .ok r => .ok (.obj [("success", .bool true), ("result", r)])
    | .error e => .ok (.obj [("success", .bool false), ("error", .str e)])

/-- Python `method == s` for a string literal `s`: true only on equal str. -/
def methodIs (m : JValue) (s : String) : Bool :=
  match m with
  | .str t => t == s
  | _ => false

/-- Python `v.get(key, dflt)`: AttributeError unless `v` is a dict. -/
def pyGetD (v : JValue) (key : String) (dflt : JValue) : Except String JValue :=
  match v with
  | .obj kvs => .ok ((jLookup key kvs).getD dflt)
  | _ => .error (noAttrGet v)

/-- Python `v.get(key)` with default `None`, kept as an `Option`. -/
def pyGetOpt (v : JValue) (key : String) : Except String (Option JValue) :=
  match v with
  | .obj kvs => .ok (jLookup key kvs)
  | _ => .error (noAttrGet v)

/-- A JSON-RPC success response, field order as in base.py. -/
def mkResult (rid : JValue) (result : JValue) : JValue :=
  .obj [("jsonrpc", .str "2.0"), ("id", rid), ("result", result)]

/-- A JSON-RPC error response, field order as in base.py. -/
def mkError (rid : JValue) (code : Int) (msg : String) : JValue :=
  .obj [("jsonrpc", .str "2.0"), ("id", rid),
        ("error", .obj [("code", .num code), ("message", .str msg)])]

/-- The `tools/call` result: the envelope double-encoded by
`json.dumps(result, indent=2)` inside a one-element content list. -/
def toolsCallResult (env : JValue) : JValue :=
  .obj [("content", .arr [.obj [("type", .str "text"), ("text", .str (dumpsVal 0 env))]])]

/-- The `try` body of `MCPServer.handle_request`: branch on `method`;
an `Except.error` models an exception escaping the branch. -/
def dispatch (impl : MCPServerImpl) (st : ServerState)
    (method params requestId : JValue) : Except String (JValue × ServerState) :=
  if methodIs method "initialize" then
    .ok (mkResult requestId (initServer impl st).1, (initServer impl st).2)
  else if methodIs method "tools/list" then
    .ok (mkResult requestId (.obj [("tools", .arr st.tools)]), st)
  else if methodIs method "tools/call" then
    match pyGetOpt params "name" with
    | .error e => .error e
    | .ok name =>
      match pyGetD params "arguments" (.obj []) with
      | .error e => .error e
      | .ok args =>
        match call_tool impl name args with
        | .error e => .error e
        | .ok env => .ok (mkResult requestId (toolsCallResult env), st)
  else
    .ok (mkError requestId (-32601) ("Method not found: " ++ pyStr method), st)

/-- `MCPServer.handle_request`: the three `.get` calls run before the try
block (they raise on a non-dict request); the try/except around the
branches converts any escaping exception to a `-32603` error response. -/
def handle_request (impl : MCPServerImpl) (st : ServerState) (request : JValue) :
    Except String (JValue × ServerState) :=
  match pyGetD request "method" .null with
  | .error e => .error e
  | .ok method =>
    match pyGetD request "params" (.obj []) with
    | .error e => .error e
    | .ok params =>
      match pyGetD request "id" (.str "1") with
      | .error e => .error e
      | .ok requestId =>
        .ok (match dispatch impl st method params requestId with
             | .ok out => out
             | .error e => (mkError requestId (-32603) e, st))

/-- State after handling one request (unchanged when the handler raises,
since all mutation precedes any raise). -/
def stepState (impl : MCPServerImpl) (st : ServerState) (request : JValue) :
    ServerState :=
  match handle_request impl st request with
  | .ok (_, st') => st'
  | .error _ => st

/-- State after handling a sequence of requests in order. -/
def processAll (impl : MCPServerImpl) : ServerState → List JValue → ServerState
  | st, [] => st
  | st, r :: rest => processAll impl (stepState impl st r) rest

/-- One read outcome of the stream transport: EOF/empty line (break),
a line that is not valid JSON (JSONDecodeError text attached), or a
successfully parsed JSON value. -/
inductive InLine where
  | eof : InLine
  | noParse : String → InLine
  | parsed : JValue → InLine

/-- The response written for a JSONDecodeError with text `e`. -/
def mkParseError (e : String) : JValue :=
  .obj [("jsonrpc", .str "2.0"), ("id", .null),
        ("error", .obj [("code", .num (-32700)), ("message", .str ("Parse error: " ++ e))])]

/-- The read/dispatch/write loop of `MCPServer.run`: EOF breaks; a parse
failure writes a `-32700` response and continues; a dispatched request
writes its response and continues; any other exception breaks the loop.
The returned list is the sequence of responses written. -/
def runLoop (impl : MCPServerImpl) : ServerState → List InLine → List JValue
  | _, [] => []
  | _, InLine.eof :: _ => []
  | st, InLine.noParse e :: rest => mkParseError e :: runLoop impl st rest
  | st, InLine.parsed v :: rest =>
    match handle_request impl st v with
    | .ok (resp, st') => resp :: runLoop impl st' rest
    | .error _ => []

/-- A well-formed JSON-RPC response: version tag, an id field, exactly one
of result/error, and a well-shaped error object when present. -/
def isWellFormedResponse (v : JValue) : Bool :=
  match v with
  | .obj kvs =>
    (match jLookup "jsonrpc" kvs with
     | some (.str s) => s == "2.0"
     | _ => false)
    && hasKeyB "id" kvs
    && ((hasKeyB "result" kvs).xor (hasKeyB "error" kvs))
    && (match jLookup "error" kvs with
        | none => true
        | some (.obj e) =>
          (match jLookup "code" e with
           | some (.num _) => true
           | _ => false)
          && (match jLookup "message" e with
              | some (.str _) => true
              | _ => false)
        | some _ => false)
  | _ => false

/-- The id field of a response object. -/
def respIdOf : JValue → Option JValue
  | .obj kvs => jLookup "id" kvs
  | _ => none

/-- Whether a response object carries a result field. -/
def hasResultKey : JValue → Bool
  | .obj kvs => hasKeyB "result" kvs
  | _ => false

/-- The error code of a response object, when present. -/
def errCodeOf : JValue → Option Int
  | .obj kvs =>
    match jLookup "error" kvs with
    | some (.obj e) =>
      match jLookup "code" e with
      | some (.num c) => some c
      | _ => none
    | _ => none
  | _ => none

/-- The name field of a tool descriptor object. -/
def toolNameOf : JValue → Option String
  | .obj kvs =>
    match jLookup "name" kvs with
    | some (.str s) => some s
    | _ => none
  | _ => none

/-- Helper for a string-typed schema property with a description. -/
def strProp (d : String) : JValue :=
  .obj [("type", .str "string"), ("description", .str d)]

/-- Helper for an integer-typed schema property with a description. -/
def intProp (d : String) : JValue :=
  .obj [("type", .str "integer"), ("description", .str d)]

/-- Helper for an object input schema with properties and required names. -/
def objSchema (props : List (String × JValue)) (req : List String) : JValue :=
  .obj [("type", .str "object"), ("properties", .obj props),
        ("required", .arr (req.map JValue.str))]

/-- Helper for an object input schema with properties and no required list. -/
def objSchemaNoReq (props : List (String × JValue)) : JValue :=
  .obj [("type", .str "object"), ("properties", .obj props)]

/-- Helper for a tool descriptor. -/
def toolDesc (name descr : String) (schema : JValue) : JValue :=
  .obj [("name", .str name), ("description", .str descr), ("inputSchema", schema)]

/-- The descriptor list assigned to `self.tools` by
`ZetaChainMCPServer._load_tools` (server.py), in source order. -/
def zetaTools : List JValue :=
  [toolDesc "create_wallet" "Create a new ZetaChain wallet"
     (objSchema [("name", strProp "Name for the wallet"),
                 ("mnemonic", strProp "Optional mnemonic phrase")] ["name"]),
   toolDesc "import_wallet" "Import an existing wallet from private key"
     (objSchema [("name", strProp "Name for the wallet"),
                 ("private_key", strProp "Private key in hex format")]
        ["name", "private_key"]),
   toolDesc "list_wallets" "List all created/imported wallets"
     (objSchemaNoReq []),
   toolDesc "get_balance" "Get balance for a wallet on a specific chain"
     (objSchema [("wallet_name", strProp "Name of the wallet"),
                 ("chain", strProp "Chain name (default: zetachain)")]
        ["wallet_name"]),
   toolDesc "get_wallet_info" "Get detailed information about a wallet"
     (objSchema [("wallet_name", strProp "Name of the wallet")] ["wallet_name"]),
   toolDesc "get_supported_chains" "Get list of supported chains for cross-chain operations"
     (objSchemaNoReq []),
   toolDesc "get_bridge_info" "Get bridge information between two chains"
     (objSchema [("from_chain", strProp "Source chain"),
                 ("to_chain", strProp "Destination chain")]
        ["from_chain", "to_chain"]),
   toolDesc "estimate_cross_chain_fee" "Estimate fees for cross-chain transfer"
     (objSchema [("from_chain", strProp "Source chain"),
                 ("to_chain", strProp "Destination chain"),
                 ("amount", strProp "Amount to transfer")]
        ["from_chain", "to_chain", "amount"]),
   toolDesc "get_cross_chain_status" "Get status of a cross-chain transaction"
     (objSchema [("tx_hash", strProp "Transaction hash")] ["tx_hash"]),
   toolDesc "get_cross_chain_history" "Get cross-chain transaction history for an address"
     (objSchema [("address", strProp "Wallet address"),
                 ("limit", intProp "Number of transactions to return")]
        ["address"]),
   toolDesc "send_omnichain_message" "Send an omnichain message"
     (objSchema [("from_chain", strProp "Source chain"),
                 ("to_chain", strProp "Destination chain"),
                 ("message", strProp "Message content"),
                 ("sender_address", strProp "Sender address"),
                 ("recipient_address", strProp "Recipient address")]
        ["from_chain", "to_chain", "message", "sender_address", "recipient_address"]),
   toolDesc "get_message_status" "Get status of an omnichain message"
     (objSchema [("message_id", strProp "Message ID")] ["message_id"]),
   toolDesc "get_messages" "Get omnichain messages for an address"
     (objSchema [("address", strProp "Wallet address"),
                 ("limit", intProp "Number of messages to return")]
        ["address"]),
   toolDesc "get_omnichain_stats" "Get omnichain messaging statistics"
     (objSchemaNoReq []),
   toolDesc "get_chain_status" "Get status of all supported chains"
     (objSchemaNoReq []),
   toolDesc "get_proposals" "Get governance proposals"
     (objSchemaNoReq [("status", strProp "Filter by status (voting, passed, failed)")]),
   toolDesc "get_proposal" "Get details of a specific proposal"
     (objSchema [("proposal_id", strProp "Proposal ID")] ["proposal_id"]),
   toolDesc "vote_on_proposal" "Vote on a governance proposal"
     (objSchema [("proposal_id", strProp "Proposal ID"),
                 ("voter_address", strProp "Voter address"),
                 ("vote", .obj [("type", .str "string"),
                                ("enum", .arr [.str "yes", .str "no", .str "abstain"]),
                                ("description", .str "Vote option")]),
                 ("voting_power", intProp "Voting power")]
        ["proposal_id", "voter_address", "vote", "voting_power"]),
   toolDesc "get_voting_power" "Get voting power for an address"
     (objSchema [("address", strProp "Wallet address")] ["address"]),
   toolDesc "get_governance_stats" "Get governance statistics"
     (objSchemaNoReq []),
   toolDesc "get_pools" "Get available liquidity pools"
     (objSchemaNoReq []),
   toolDesc "get_pool_info" "Get detailed information about a specific pool"
     (objSchema [("pool_id", strProp "Pool ID")] ["pool_id"]),
   toolDesc "add_liquidity" "Add liquidity to a pool"
     (objSchema [("pool_id", strProp "Pool ID"),
                 ("token_a_amount", strProp "Amount of token A"),
                 ("token_b_amount", strProp "Amount of token B"),
                 ("user_address", strProp "User address")]
        ["pool_id", "token_a_amount", "token_b_amount", "user_address"]),
   toolDesc "remove_liquidity" "Remove liquidity from a pool"
     (objSchema [("pool_id", strProp "Pool ID"),
                 ("lp_tokens", strProp "Amount of LP tokens to remove"),
                 ("user_address", strProp "User address")]
        ["pool_id", "lp_tokens", "user_address"]),
   toolDesc "swap_tokens" "Swap tokens in a pool"
     (objSchema [("pool_id", strProp "Pool ID"),
                 ("token_in", strProp "Input token"),
                 ("amount_in", strProp "Input amount"),
                 ("user_address", strProp "User address")]
        ["pool_id", "token_in", "amount_in", "user_address"]),
   toolDesc "get_user_positions" "Get user's liquidity positions"
     (objSchema [("user_address", strProp "User address")] ["user_address"]),
   toolDesc "get_defi_stats" "Get DeFi platform statistics"
     (objSchemaNoReq []),
   toolDesc "get_network_info" "Get network information for a specific chain"
     (objSchemaNoReq [("chain", strProp "Chain name (default: zetachain)")])]

/-- The names `n` for which `ZetaChainMCPServer` defines a method
`tool_<n>` (server.py), in source order. -/
def zetaHandlerNames : List String :=
  ["create_wallet", "import_wallet", "list_wallets", "get_balance",
   "get_wallet_info", "get_supported_chains", "get_bridge_info",
   "estimate_cross_chain_fee", "get_cross_chain_status",
   "get_cross_chain_history", "send_omnichain_message", "get_message_status",
   "get_messages", "get_omnichain_stats", "get_chain_status", "get_proposals",
   "get_proposal", "vote_on_proposal", "get_voting_power",
   "get_governance_stats", "get_pools", "get_pool_info", "add_liquidity",
   "remove_liquidity", "swap_tokens", "get_user_positions", "get_defi_stats",
   "get_network_info"]

/-- `ZetaChainMCPServer`, parametric in the behaviour of the domain-manager
collaborators each `tool_<n>` method delegates to (out of the core's scope:
a handler body is one `await <manager>.<op>(...)` call). -/
def zetaServer (collab : String → JValue → Except String JValue) : MCPServerImpl :=
  { loadedTools := zetaTools
    getHandler := fun n => if zetaHandlerNames.contains n then some (collab n) else none }

/-- A concrete instance whose collaborators all succeed with `null`
(collaborator behaviour is irrelevant to the claims evaluated on it). -/
def zetaServerDemo : MCPServerImpl :=
  zetaServer (fun _ _ => .ok .null)

/-- A handler that raises an exception whose text is `"boom"`. -/
def boomHandler : JValue → Except String JValue :=
  fun _ => .error "boom"

/-- A server exposing one tool, `boom_tool`, bound to `boomHandler`. -/
def boomServer : MCPServerImpl :=
  { loadedTools := [toolDesc "boom_tool" "Always raises" (objSchemaNoReq [])]
    getHandler := fun n => if n == "boom_tool" then some boomHandler else none }

/-- On a dict-shaped request the three leading `.get` calls succeed, so
`handle_request` reduces to the guarded dispatch. -/
theorem handle_request_obj (impl : MCPServerImpl) (st : ServerState)
    (kvs : List (String × JValue)) :
    handle_request impl st (.obj kvs) =
      .ok (match dispatch impl st ((jLookup "method" kvs).getD .null)
                 ((jLookup "params" kvs).getD (.obj []))
                 ((jLookup "id" kvs).getD (.str "1")) with
           | .ok out => out
           | .error e =>
               (mkError ((jLookup "id" kvs).getD (.str "1")) (-32603) e, st)) := rfl

/-- Dispatch of the literal method `"initialize"`. -/
theorem dispatch_init (impl : MCPServerImpl) (st : ServerState) (p i : JValue) :
    dispatch impl st (.str "initialize") p i =
      .ok (mkResult i (initServer impl st).1, (initServer impl st).2) := rfl

/-- Dispatch of the literal method `"tools/list"`. -/
theorem dispatch_list (impl : MCPServerImpl) (st : ServerState) (p i : JValue) :
    dispatch impl st (.str "tools/list") p i =
      .ok (mkResult i (.obj [("tools", .arr st.tools)]), st) := rfl

/-- Dispatch of the literal method `"tools/call"`. -/
theorem dispatch_call (impl : MCPServerImpl) (st : ServerState) (p i : JValue) :
    dispatch impl st (.str "tools/call") p i =
      (match pyGetOpt p "name" with
       | .error e => .error e
       | .ok name =>
         match pyGetD p "arguments" (.obj []) with
         | .error e => .error e
         | .ok args =>
           match call_tool impl name args with
           | .error e => .error e
           | .ok env => .ok (mkResult i (toolsCallResult env), st)) := rfl

/-- A success response is well formed. -/
theorem wf_mkResult (i res : JValue) : isWellFormedResponse (mkResult i res) = true := rfl

/-- An error response is well formed. -/
theorem wf_mkError (i : JValue) (c : Int) (m : String) :
    isWellFormedResponse (mkError i c m) = true := rfl

/-- A success response echoes its id. -/
theorem respId_mkResult (i res : JValue) : respIdOf (mkResult i res) = some i := rfl

/-- An error response echoes its id. -/
theorem respId_mkError (i : JValue) (c : Int) (m : String) :
    respIdOf (mkError i c m) = some i := rfl

/-- An error response carries no result field. -/
theorem hasResult_mkError (i : JValue) (c : Int) (m : String) :
    hasResultKey (mkError i c m) = false := rfl

/-- Every successful dispatch produces either a success response or an
error response, both correlated to the given request id. -/
theorem dispatch_ok_shape (impl : MCPServerImpl) (st : ServerState)
    (m p i : JValue) (out : JValue × ServerState)
    (h : dispatch impl st m p i = .ok out) :
    (∃ res, out.1 = mkResult i res) ∨ ∃ c msg, out.1 = mkError i c msg := by
  unfold dispatch at h
  split at h
  · cases h; exact .inl ⟨_, rfl⟩
  · split at h
    · cases h; exact .inl ⟨_, rfl⟩
    · split at h
      · split at h
        · exact Except.noConfusion h
        · split at h
          · exact Except.noConfusion h
          · split at h
            · exact Except.noConfusion h
            · cases h; exact .inl ⟨_, rfl⟩
      · cases h; exact .inr ⟨_, _, rfl⟩

/-- A successful dispatch leaves the state unchanged except possibly for
the initialization transition. -/
theorem dispatch_ok_state (impl : MCPServerImpl) (st : ServerState)
    (m p i : JValue) (out : JValue × ServerState)
    (h : dispatch impl st m p i = .ok out) :
    out.2 = st ∨ out.2 = (initServer impl st).2 := by
  unfold dispatch at h
  split at h
  · cases h; exact .inr rfl
  · split at h
    · cases h; exact .inl rfl
    · split at h
      · split at h
        · exact Except.noConfusion h
        · split at h
          · exact Except.noConfusion h
          · split at h
            · exact Except.noConfusion h
            · cases h; exact .inl rfl
      · cases h; exact .inl rfl

/-- `handle_request` never raises on a dict-shaped request, and the
response it returns is well formed (shared workhorse lemma). -/
theorem handle_request_total (impl : MCPServerImpl) (st : ServerState)
    (kvs : List (String × JValue)) :
    ∃ resp st', handle_request impl st (.obj kvs) = .ok (resp, st') ∧
      isWellFormedResponse resp = true := by
  rw [handle_request_obj]
  cases hd : dispatch impl st ((jLookup "method" kvs).getD .null)
      ((jLookup "params" kvs).getD (.obj []))
      ((jLookup "id" kvs).getD (.str "1")) with
  | error e =>
      exact ⟨_, _, rfl, wf_mkError _ _ _⟩
  | ok out =>
      rcases dispatch_ok_shape impl st _ _ _ out hd with ⟨res, hres⟩ | ⟨c, msg, hres⟩
      · exact ⟨out.1, out.2, rfl, by rw [hres]; exact wf_mkResult _ _⟩
      · exact ⟨out.1, out.2, rfl, by rw [hres]; exact wf_mkError _ _ _⟩

/-- A successful `handle_request` leaves the state unchanged except
possibly for the initialization transition. -/
theorem handle_request_ok_state (impl : MCPServerImpl) (st : ServerState)
    (r : JValue) (out : JValue × ServerState)
    (h : handle_request impl st r = .ok out) :
    out.2 = st ∨ out.2 = (initServer impl st).2 := by
  unfold handle_request at h
  split at h
  · exact Except.noConfusion h
  · split at h
    · exact Except.noConfusion h
    · split at h
      · exact Except.noConfusion h
      · cases h
        split
        · exact dispatch_ok_state impl st _ _ _ _ (by assumption)
        · exact .inl rfl

/-- One handled request either keeps the state or initializes it. -/
theorem stepState_cases (impl : MCPServerImpl) (st : ServerState) (r : JValue) :
    stepState impl st r = st ∨ stepState impl st r = (initServer impl st).2 := by
  unfold stepState
  split
  · have := handle_request_ok_state impl st r _ (by assumption)
    exact this
  · exact .inl rfl

/-- Once initialized, a repeated `initialize` keeps the state. -/
theorem initServer_snd_inited (impl : MCPServerImpl) (st : ServerState)
    (h : st.inited = true) : (initServer impl st).2 = st := by
  unfold initServer
  simp [h]

/-- The state after `initialize` is always initialized. -/
theorem initServer_snd_inited_true (impl : MCPServerImpl) (st : ServerState) :
    (initServer impl st).2.inited = true := by
  unfold initServer
  by_cases h : st.inited <;> simp [h]

/-- The capability payload is the same on every `initialize` call. -/
theorem initServer_fst (impl : MCPServerImpl) (st : ServerState) :
    (initServer impl st).1 = capabilityPayload := by
  unfold initServer
  by_cases h : st.inited <;> simp [h]

/-- Once initialized, no request mutates the server state at all. -/
theorem stepState_inited (impl : MCPServerImpl) (st : ServerState) (r : JValue)
    (h : st.inited = true) : stepState impl st r = st := by
  rcases stepState_cases impl st r with h1 | h1
  · exact h1
  · rw [h1, initServer_snd_inited impl st h]

/-- Once initialized, no request sequence mutates the server state. -/
theorem processAll_inited (impl : MCPServerImpl) (reqs : List JValue)
    (st : ServerState) (h : st.inited = true) : processAll impl st reqs = st := by
  induction reqs generalizing st with
  | nil => rfl
  | cons r rest ih =>
    show processAll impl (stepState impl st r) rest = st
    rw [stepState_inited impl st r h]
    exact ih st h

/-- Single-step preservation of the load-once invariant. -/
theorem stepState_inv (impl : MCPServerImpl) (st : ServerState) (r : JValue)
    (h1 : st.loadCount ≤ 1) (h2 : st.inited = false → st.loadCount = 0) :
    (stepState impl st r).loadCount ≤ 1 ∧
      ((stepState impl st r).inited = false → (stepState impl st r).loadCount = 0) := by
  rcases stepState_cases impl st r with hs | hs <;> rw [hs]
  · exact ⟨h1, h2⟩
  · cases hb : st.inited with
    | true =>
        rw [initServer_snd_inited impl st hb]
        exact ⟨h1, h2⟩
    | false =>
        have hc : (initServer impl st).2 = ⟨impl.loadedTools, true, st.loadCount + 1⟩ := by
          simp [initServer, hb]
        rw [hc]
        constructor
        · have h0 := h2 hb
          show st.loadCount + 1 ≤ 1
          omega
        · intro hf
          exact Bool.noConfusion hf

/-- The load-once invariant holds after any request sequence. -/
theorem processAll_inv (impl : MCPServerImpl) (reqs : List JValue)
    (st : ServerState) (h1 : st.loadCount ≤ 1)
    (h2 : st.inited = false → st.loadCount = 0) :
    (processAll impl st reqs).loadCount ≤ 1 := by
  induction reqs generalizing st with
  | nil => exact h1
  | cons r rest ih =>
    show (processAll impl (stepState impl st r) rest).loadCount ≤ 1
    obtain ⟨g1, g2⟩ := stepState_inv impl st r h1 h2
    exact ih _ g1 g2

/-- Dispatch of `tools/call` on dict-shaped params reduces to the invoker. -/
theorem dispatch_call_obj (impl : MCPServerImpl) (st : ServerState)
    (pkvs : List (String × JValue)) (i : JValue) :
    dispatch impl st (.str "tools/call") (.obj pkvs) i =
      (match call_tool impl (jLookup "name" pkvs)
             ((jLookup "arguments" pkvs).getD (.obj [])) with
       | .error e => .error e
       | .ok env => .ok (mkResult i (toolsCallResult env), st)) := rfl

/-- Handling a `tools/call` request with dict-shaped params: the protocol
response is determined by the invoker's outcome, the state untouched. -/
theorem handle_request_call (impl : MCPServerImpl) (st : ServerState)
    (kvs pkvs : List (String × JValue))
    (hm : jLookup "method" kvs = some (.str "tools/call"))
    (hp : (jLookup "params" kvs).getD (.obj []) = .obj pkvs) :
    handle_request impl st (.obj kvs) =
      .ok (match call_tool impl (jLookup "name" pkvs)
               ((jLookup "arguments" pkvs).getD (.obj [])) with
           | .ok env =>
               (mkResult ((jLookup "id" kvs).getD (.str "1")) (toolsCallResult env), st)
           | .error e =>
               (mkError ((jLookup "id" kvs).getD (.str "1")) (-32603) e, st)) := by
  rw [handle_request_obj, hm, Option.getD_some, hp, dispatch_call_obj]
  cases call_tool impl (jLookup "name" pkvs)
      ((jLookup "arguments" pkvs).getD (.obj [])) <;> rfl

/-- An unregistered tool name makes `call_tool` raise the ValueError. -/
theorem call_tool_unknown (impl : MCPServerImpl) (nm : String) (args : JValue)
    (hh : impl.getHandler nm = none) :
    call_tool impl (some (.str nm)) args =
      .error ("Tool '" ++ nm ++ "' not found") := by
  unfold call_tool
  have h0 : toolNameStr (some (.str nm)) = nm := rfl
  rw [h0, hh]

/-- A missing tool name interpolates as `None` and raises the ValueError
(unless the server happens to bind a handler named `tool_None`). -/
theorem call_tool_none (impl : MCPServerImpl) (args : JValue)
    (hh : impl.getHandler "None" = none) :
    call_tool impl none args = .error "Tool 'None' not found" := by
  unfold call_tool
  have h0 : toolNameStr none = "None" := rfl
  rw [h0, hh]
  rfl

/-- A handler exception is caught and wrapped as a failure envelope. -/
theorem call_tool_handler_error (impl : MCPServerImpl) (name : Option JValue)
    (args : JValue) (h : JValue → Except String JValue) (m : String)
    (hH : impl.getHandler (toolNameStr name) = some h)
    (hE : h args = .error m) :
    call_tool impl name args =
      .ok (.obj [("success", .bool false), ("error", .str m)]) := by
  unfold call_tool
  rw [hH]
  show (match h args with
        | Except.ok r =>
            Except.ok (JValue.obj [("success", JValue.bool true), ("result", r)])
        | Except.error e =>
            Except.ok (JValue.obj [("success", JValue.bool false), ("error", JValue.str e)]))
      = Except.ok (JValue.obj [("success", JValue.bool false), ("error", JValue.str m)])
  rw [hE]

/-- An unrecognized method falls through every branch to the -32601 error. -/
theorem dispatch_other (impl : MCPServerImpl) (st : ServerState)
    (m p i : JValue)
    (e1 : methodIs m "initialize" = false)
    (e2 : methodIs m "tools/list" = false)
    (e3 : methodIs m "tools/call" = false) :
    dispatch impl st m p i =
      .ok (mkError i (-32601) ("Method not found: " ++ pyStr m), st) := by
  simp only [dispatch, e1, e2, e3, Bool.false_eq_true, if_false]

/-- C1 (counterexample to the claim as stated): calling the unregistered
tool `does_not_exist` on the ZetaChain server does NOT yield a successful
protocol response with a nested failure envelope; it yields a protocol-level
JSON-RPC error object with code -32603 (and hence no `result` field),
because the ValueError in `call_tool` is raised before its try block. -/
theorem c1_claim_counterexample :
    handle_request zetaServerDemo initState
        (.obj [("method", .str "tools/call"),
               ("params", .obj [("name", .str "does_not_exist"),
                                ("arguments", .obj [])])]) =
      .ok (mkError (.str "1") (-32603) "Tool 'does_not_exist' not found", initState) ∧
    hasResultKey (mkError (.str "1") (-32603) "Tool 'does_not_exist' not found") = false :=
  ⟨rfl, rfl⟩

/-- C1 (amended): for a `tools/call` request naming an unregistered tool,
`handle_request` returns a JSON-RPC error response (not a successful
result) with code -32603 and message `Tool '<name>' not found`, the
ValueError being converted only at the dispatcher boundary; the state is
untouched. -/
theorem c1_unknown_tool_internal_error (impl : MCPServerImpl) (st : ServerState)
    (kvs pkvs : List (String × JValue)) (nm : String)
    (hm : jLookup "method" kvs = some (.str "tools/call"))
    (hp : (jLookup "params" kvs).getD (.obj []) = .obj pkvs)
    (hn : jLookup "name" pkvs = some (.str nm))
    (hh : impl.getHandler nm = none) :
    handle_request impl st (.obj kvs) =
      .ok (mkError ((jLookup "id" kvs).getD (.str "1")) (-32603)
             ("Tool '" ++ nm ++ "' not found"), st) := by
  rw [handle_request_call impl st kvs pkvs hm hp, hn,
      call_tool_unknown impl nm _ hh]

/-- C1 witness: the amended statement evaluated on the ZetaChain server at
the unregistered name `ghost_tool`. -/
theorem c1_witness :
    handle_request zetaServerDemo initState
        (.obj [("method", .str "tools/call"),
               ("params", .obj [("name", .str "ghost_tool"),
                                ("arguments", .obj [])]),
               ("id", .num 5)]) =
      .ok (mkError (.num 5) (-32603) "Tool 'ghost_tool' not found", initState) :=
  c1_unknown_tool_internal_error zetaServerDemo initState _ _ "ghost_tool"
    rfl rfl rfl rfl

/-- C2: on every dict-shaped request object, `handle_request` never raises:
it returns a well-formed JSON-RPC response (exactly one of result/error,
error carrying an integer code and string message), on every path. -/
theorem c2_dispatcher_total (impl : MCPServerImpl) (st : ServerState)
    (kvs : List (String × JValue)) :
    ∃ resp st', handle_request impl st (.obj kvs) = .ok (resp, st') ∧
      isWellFormedResponse resp = true :=
  handle_request_total impl st kvs

/-- C3: a handler exception with message `m` is caught by `call_tool` and
wrapped as the failure envelope, and the `tools/call` protocol response is
still a successful result carrying that envelope; no exception reaches the
transport layer. -/
theorem c3_handler_exception_enveloped :
    (∀ (impl : MCPServerImpl) (name : Option JValue) (args : JValue)
       (h : JValue → Except String JValue) (m : String),
       impl.getHandler (toolNameStr name) = some h →
       h args = .error m →
       call_tool impl name args =
         .ok (.obj [("success", .bool false), ("error", .str m)])) ∧
    (∀ (impl : MCPServerImpl) (st : ServerState)
       (kvs pkvs : List (String × JValue))
       (h : JValue → Except String JValue) (m : String),
       jLookup "method" kvs = some (.str "tools/call") →
       (jLookup "params" kvs).getD (.obj []) = .obj pkvs →
       impl.getHandler (toolNameStr (jLookup "name" pkvs)) = some h →
       h ((jLookup "arguments" pkvs).getD (.obj [])) = .error m →
       handle_request impl st (.obj kvs) =
         .ok (mkResult ((jLookup "id" kvs).getD (.str "1"))
                (toolsCallResult (.obj [("success", .bool false), ("error", .str m)])),
              st)) := by
  constructor
  · intro impl name args h m hH hE
    exact call_tool_handler_error impl name args h m hH hE
  · intro impl st kvs pkvs h m hm hp hH hE
    rw [handle_request_call impl st kvs pkvs hm hp,
        call_tool_handler_error impl _ _ h m hH hE]

/-- C3 witness: a server with one tool whose handler raises `"boom"`. -/
theorem c3_witness :
    call_tool boomServer (some (.str "boom_tool")) (.obj []) =
      .ok (.obj [("success", .bool false), ("error", .str "boom")]) ∧
    handle_request boomServer initState
        (.obj [("method", .str "tools/call"),
               ("params", .obj [("name", .str "boom_tool"),
                                ("arguments", .obj [])])]) =
      .ok (mkResult (.str "1")
             (toolsCallResult (.obj [("success", .bool false), ("error", .str "boom")])),
           initState) :=
  ⟨c3_handler_exception_enveloped.1 boomServer (some (.str "boom_tool")) (.obj [])
     boomHandler "boom" rfl rfl,
   c3_handler_exception_enveloped.2 boomServer initState _ _
     boomHandler "boom" rfl rfl rfl rfl⟩

/-- C4: `initialize` is idempotent (a second call returns the identical
capability payload and leaves the state untouched), and starting from a
fresh server state, `_load_tools` runs at most once over any request
sequence. -/
theorem c4_init_idempotent_load_once :
    (∀ (impl : MCPServerImpl) (st : ServerState),
       (initServer impl (initServer impl st).2).1 = (initServer impl st).1 ∧
       (initServer impl (initServer impl st).2).2 = (initServer impl st).2) ∧
    (∀ (impl : MCPServerImpl) (reqs : List JValue),
       (processAll impl initState reqs).loadCount ≤ 1) := by
  constructor
  · intro impl st
    constructor
    · rw [initServer_fst, initServer_fst]
    · exact initServer_snd_inited impl _ (initServer_snd_inited_true impl st)
  · intro impl reqs
    exact processAll_inv impl reqs initState (by decide) (fun _ => rfl)

/-- C5: a non-JSON line makes the stream loop write a response with code
-32700 and id null and continue; a subsequent valid request on the same
connection is still dispatched and answered. -/
theorem c5_parse_error_loop_continues (impl : MCPServerImpl) (st : ServerState)
    (e : String) (kvs : List (String × JValue)) (rest : List InLine) :
    runLoop impl st (InLine.noParse e :: rest) =
      mkParseError e :: runLoop impl st rest ∧
    errCodeOf (mkParseError e) = some (-32700) ∧
    respIdOf (mkParseError e) = some JValue.null ∧
    ∃ resp st', handle_request impl st (.obj kvs) = .ok (resp, st') ∧
      runLoop impl st (InLine.noParse e :: InLine.parsed (.obj kvs) :: rest) =
        mkParseError e :: resp :: runLoop impl st' rest := by
  refine ⟨rfl, rfl, rfl, ?_⟩
  obtain ⟨resp, st', hok, _⟩ := handle_request_total impl st kvs
  refine ⟨resp, st', hok, ?_⟩
  have h2 : runLoop impl st (InLine.parsed (.obj kvs) :: rest) =
      resp :: runLoop impl st' rest := by
    show (match handle_request impl st (.obj kvs) with
          | .ok (r, s) => r :: runLoop impl s rest
          | .error _ => []) = resp :: runLoop impl st' rest
    rw [hok]
  show mkParseError e :: runLoop impl st (InLine.parsed (.obj kvs) :: rest) =
    mkParseError e :: resp :: runLoop impl st' rest
  rw [h2]

/-- C6: the response id always equals the request id, defaulting to the
string "1" when the request omits one, on every dispatch path including
the -32601 and -32603 error paths. -/
theorem c6_id_passthrough (impl : MCPServerImpl) (st : ServerState)
    (kvs : List (String × JValue)) (out : JValue × ServerState)
    (h : handle_request impl st (.obj kvs) = .ok out) :
    respIdOf out.1 = some ((jLookup "id" kvs).getD (.str "1")) := by
  rw [handle_request_obj] at h
  injection h with h2
  rw [← h2]
  cases hd : dispatch impl st ((jLookup "method" kvs).getD .null)
      ((jLookup "params" kvs).getD (.obj []))
      ((jLookup "id" kvs).getD (.str "1")) with
  | error e =>
      exact respId_mkError _ _ _
  | ok o =>
      rcases dispatch_ok_shape impl st _ _ _ o hd with ⟨res, hres⟩ | ⟨c, m2, hres⟩
      · show respIdOf o.1 = some ((jLookup "id" kvs).getD (.str "1"))
        rw [hres]
        exact respId_mkResult _ _
      · show respIdOf o.1 = some ((jLookup "id" kvs).getD (.str "1"))
        rw [hres]
        exact respId_mkError _ _ _

/-- C6 witness: a request with no id and an unknown method is answered
with the default id "1" on the -32601 error path. -/
theorem c6_witness :
    respIdOf (mkError (.str "1") (-32601) "Method not found: None",
              initState).1 = some (.str "1") :=
  c6_id_passthrough zetaServerDemo initState []
    (mkError (.str "1") (-32601) "Method not found: None", initState) rfl

/-- C7: every method outside the three supported ones is answered with
exactly the -32601 error object, the id echoed, and the state untouched. -/
theorem c7_method_not_found_response (impl : MCPServerImpl) (st : ServerState)
    (kvs : List (String × JValue)) (m : String)
    (hm : jLookup "method" kvs = some (.str m))
    (h1 : m ≠ "initialize") (h2 : m ≠ "tools/list") (h3 : m ≠ "tools/call") :
    handle_request impl st (.obj kvs) =
      .ok (mkError ((jLookup "id" kvs).getD (.str "1")) (-32601)
             ("Method not found: " ++ m), st) := by
  have e1 : methodIs (JValue.str m) "initialize" = false := beq_eq_false_iff_ne.mpr h1
  have e2 : methodIs (JValue.str m) "tools/list" = false := beq_eq_false_iff_ne.mpr h2
  have e3 : methodIs (JValue.str m) "tools/call" = false := beq_eq_false_iff_ne.mpr h3
  rw [handle_request_obj, hm, Option.getD_some,
      dispatch_other impl st (JValue.str m) _ _ e1 e2 e3]
  rfl

/-- C7 witness: the unknown method `foo/bar`. -/
theorem c7_witness :
    handle_request zetaServerDemo initState
        (.obj [("method", .str "foo/bar"), ("id", .num 7)]) =
      .ok (mkError (.num 7) (-32601) "Method not found: foo/bar", initState) :=
  c7_method_not_found_response zetaServerDemo initState _ "foo/bar"
    rfl (by decide) (by decide) (by decide)

/-- C8: whenever a `tools/call` request is answered with a result, that
result is exactly the one-element content list whose text is the
`json.dumps(..., indent=2)` serialization of the invoker's envelope. -/
theorem c8_tools_call_result_shape (impl : MCPServerImpl) (st : ServerState)
    (kvs : List (String × JValue)) (out : JValue × ServerState)
    (hm : jLookup "method" kvs = some (.str "tools/call"))
    (h : handle_request impl st (.obj kvs) = .ok out)
    (hr : hasResultKey out.1 = true) :
    ∃ pkvs env,
      (jLookup "params" kvs).getD (.obj []) = .obj pkvs ∧
      call_tool impl (jLookup "name" pkvs)
        ((jLookup "arguments" pkvs).getD (.obj [])) = .ok env ∧
      out.1 = mkResult ((jLookup "id" kvs).getD (.str "1"))
        (.obj [("content", .arr [.obj [("type", .str "text"),
                                       ("text", .str (dumpsVal 0 env))]])]) := by
  rw [handle_request_obj, hm, Option.getD_some] at h
  cases hp : (jLookup "params" kvs).getD (.obj []) with
  | obj pkvs =>
      rw [hp, dispatch_call_obj] at h
      cases hc : call_tool impl (jLookup "name" pkvs)
          ((jLookup "arguments" pkvs).getD (.obj [])) with
      | error e =>
          rw [hc] at h
          injection h with h2
          have hfalse : hasResultKey out.1 = false := by rw [← h2]; rfl
          rw [hfalse] at hr
          exact Bool.noConfusion hr
      | ok env =>
          rw [hc] at h
          injection h with h2
          exact ⟨pkvs, env, rfl, hc, by rw [← h2]; rfl⟩
  | null =>
      rw [hp] at h
      injection h with h2
      have hfalse : hasResultKey out.1 = false := by rw [← h2]; rfl
      rw [hfalse] at hr
      exact Bool.noConfusion hr
  | bool b =>
      rw [hp] at h
      injection h with h2
      have hfalse : hasResultKey out.1 = false := by rw [← h2]; rfl
      rw [hfalse] at hr
      exact Bool.noConfusion hr
  | num n =>
      rw [hp] at h
      injection h with h2
      have hfalse : hasResultKey out.1 = false := by rw [← h2]; rfl
      rw [hfalse] at hr
      exact Bool.noConfusion hr
  | str s =>
      rw [hp] at h
      injection h with h2
      have hfalse : hasResultKey out.1 = false := by rw [← h2]; rfl
      rw [hfalse] at hr
      exact Bool.noConfusion hr
  | arr xs =>
      rw [hp] at h
      injection h with h2
      have hfalse : hasResultKey out.1 = false := by rw [← h2]; rfl
      rw [hfalse] at hr
      exact Bool.noConfusion hr

/-- C8 witness: calling `get_pools` on the ZetaChain server. -/
theorem c8_witness :
    ∃ pkvs env,
      (jLookup "params"
          [("method", JValue.str "tools/call"),
           ("params", JValue.obj [("name", JValue.str "get_pools"),
                                  ("arguments", JValue.obj [])])]).getD (.obj [])
        = .obj pkvs ∧
      call_tool zetaServerDemo (jLookup "name" pkvs)
        ((jLookup "arguments" pkvs).getD (.obj [])) = .ok env ∧
      (mkResult (.str "1")
         (toolsCallResult (.obj [("success", .bool true), ("result", .null)])),
       initState).1 =
        mkResult ((jLookup "id"
            [("method", JValue.str "tools/call"),
             ("params", JValue.obj [("name", JValue.str "get_pools"),
                                    ("arguments", JValue.obj [])])]).getD (.str "1"))
          (.obj [("content", .arr [.obj [("type", .str "text"),
                                         ("text", .str (dumpsVal 0 env))]])]) :=
  c8_tools_call_result_shape zetaServerDemo initState
    [("method", JValue.str "tools/call"),
     ("params", JValue.obj [("name", JValue.str "get_pools"),
                            ("arguments", JValue.obj [])])]
    (mkResult (.str "1")
       (toolsCallResult (.obj [("success", .bool true), ("result", .null)])),
     initState)
    rfl rfl rfl

/-- C9: `tools/list` immediately after `initialize` on the ZetaChain server
returns exactly the loader's descriptor list in insertion order; the name
fields match the registered `tool_*` handlers one-to-one with no
duplicates; and no later request sequence ever mutates the registry. -/
theorem c9_tools_list_roundtrip :
    (∀ collab, handle_request (zetaServer collab)
        (initServer (zetaServer collab) initState).2
        (.obj [("method", .str "tools/list")]) =
      .ok (mkResult (.str "1") (.obj [("tools", .arr zetaTools)]),
           (initServer (zetaServer collab) initState).2)) ∧
    (∀ collab, (zetaServer collab).loadedTools = zetaTools) ∧
    zetaTools.map toolNameOf = zetaHandlerNames.map some ∧
    (zetaTools.map toolNameOf).Nodup ∧
    (∀ collab (reqs : List JValue),
       (processAll (zetaServer collab)
          (initServer (zetaServer collab) initState).2 reqs).tools = zetaTools) := by
  refine ⟨fun _ => rfl, fun _ => rfl, rfl, ?_, ?_⟩
  · have e : zetaTools.map toolNameOf = zetaHandlerNames.map some := rfl
    rw [e]
    exact (by decide : zetaHandlerNames.Nodup).map (Option.some_injective String)
  · intro collab reqs
    have hin : ((initServer (zetaServer collab) initState).2).inited = true := rfl
    rw [processAll_inited _ reqs _ hin]
    rfl

/-- C10: a `tools/call` whose params lack a name: the missing name defaults
to None, the lookup of `tool_None` fails, and the ValueError escapes the
invoker and is converted only at the dispatcher boundary into a -32603
error with message `Tool 'None' not found`. -/
theorem c10_missing_name_internal_error (impl : MCPServerImpl) (st : ServerState)
    (kvs pkvs : List (String × JValue))
    (hm : jLookup "method" kvs = some (.str "tools/call"))
    (hp : (jLookup "params" kvs).getD (.obj []) = .obj pkvs)
    (hn : jLookup "name" pkvs = none)
    (hh : impl.getHandler "None" = none) :
    handle_request impl st (.obj kvs) =
      .ok (mkError ((jLookup "id" kvs).getD (.str "1")) (-32603)
             "Tool 'None' not found", st) := by
  rw [handle_request_call impl st kvs pkvs hm hp, hn, call_tool_none impl _ hh]

/-- C10 witness: the ZetaChain server with params lacking a name key. -/
theorem c10_witness :
    handle_request zetaServerDemo initState
        (.obj [("method", .str "tools/call"),
               ("params", .obj [("arguments", .obj [])])]) =
      .ok (mkError (.str "1") (-32603) "Tool 'None' not found", initState) :=
  c10_missing_name_internal_error zetaServerDemo initState _ _ rfl rfl rfl rfl
